import Mathlib

/-!
# hcloud-keepalived-notify: floating-IP matching and the `run` hook

A shallow embedding of `cmd/cmd.go`.

* `net.IP` is a byte slice; it is modelled as a list of naturals (each a byte
  value below 256).  A nil slice and an empty slice are both `[]`: the code only
  ever takes their length.
* `IP.To4`, `IP.Equal`, `networkNumberAndMask` and `IPNet.Contains` are the
  functions of Go's `net` package that `matchFloatingIP` calls, transcribed
  branch by branch.
* `run` talks to the outside world (environment, health-check file, Hetzner
  API).  The answers of the outside world are gathered in a `World` record, and
  `run` returns the ordered list of calls it issued together with its outcome.
  Calls to `log.Printf` do not influence control flow and are left out, except
  for the dereference `server.ID` of line 154, which panics on a nil server.
-/

namespace HcloudNotify

/-! ## Go `net` package -/

/-- Go `net.IP`: a slice of bytes. -/
abbrev IP := List Nat

/-- Go `net.IPMask`. -/
abbrev IPMask := List Nat

/-- Go `net.IPv4len`. -/
def IPv4len : Nat := 4

/-- Go `net.IPv6len`. -/
def IPv6len : Nat := 16

/-- Go `net.v4InV6Prefix`. -/
def v4InV6Prefix : List Nat := [0, 0, 0, 0, 0, 0, 0, 0, 0, 0, 0xff, 0xff]

/-- Go `net.isZeros`. -/
def isZeros (p : List Nat) : Bool := p.all (fun b => b == 0)

/-- Go `IP.To4`: the 4-byte form of an IPv4 address, `none` for Go's nil. -/
def IP.To4 (ip : IP) : Option IP :=
  if ip.length = IPv4len then some ip
  else if ip.length = IPv6len ∧ isZeros (ip.take 10) = true
      ∧ ip.getD 10 0 = 0xff ∧ ip.getD 11 0 = 0xff then
    some ((ip.drop 12).take 4)
  else none

/-- Go `IP.Equal`. -/
def IP.Equal (ip x : IP) : Bool :=
  if ip.length = x.length then decide (ip = x)
  else if ip.length = IPv4len ∧ x.length = IPv6len then
    decide (x.take 12 = v4InV6Prefix) && decide (ip = x.drop 12)
  else if ip.length = IPv6len ∧ x.length = IPv4len then
    decide (ip.take 12 = v4InV6Prefix) && decide (ip.drop 12 = x)
  else false

/-- Go `IP.To16`: the 16-byte form of an address, `none` for Go's nil. -/
def IP.To16 (ip : IP) : Option IP :=
  if ip.length = IPv4len then some (v4InV6Prefix ++ ip)
  else if ip.length = IPv6len then some ip
  else none

/-- Go `net.IPNet`. -/
structure IPNet where
  IP : HcloudNotify.IP
  Mask : IPMask
deriving DecidableEq, Repr

/-- Go `net.networkNumberAndMask`; the pair `([], [])` is Go's `(nil, nil)`. -/
def networkNumberAndMask (n : IPNet) : IP × IPMask :=
  match n.IP.To4 with
  | some ip =>
    if n.Mask.length = IPv4len then (ip, n.Mask)
    else if n.Mask.length = IPv6len then (ip, n.Mask.drop 12)
    else ([], [])
  | none =>
    if n.IP.length ≠ IPv6len then ([], [])
    else if n.Mask.length = IPv4len then ([], [])
    else if n.Mask.length = IPv6len then (n.IP, n.Mask)
    else ([], [])

/-- Go `IPNet.Contains`. -/
def IPNet.Contains (n : IPNet) (ip : HcloudNotify.IP) : Bool :=
  let nm := networkNumberAndMask n
  let ip := match ip.To4 with
    | some x => x
    | none => ip
  if ip.length ≠ nm.1.length then false
  else (List.range ip.length).all
    (fun i => nm.1.getD i 0 &&& nm.2.getD i 0 == ip.getD i 0 &&& nm.2.getD i 0)

/-! ## hcloud records -/

/-- The hcloud `FloatingIPType`, a string type. -/
abbrev FloatingIPType := String

/-- The constant `hcloud.FloatingIPTypeIPv4`. -/
def FloatingIPTypeIPv4 : FloatingIPType := "ipv4"

/-- The constant `hcloud.FloatingIPTypeIPv6`. -/
def FloatingIPTypeIPv6 : FloatingIPType := "ipv6"

/-- The fields of `hcloud.Server` that the code reads. -/
structure Server where
  ID : Int
  Name : String
deriving DecidableEq, Repr

/-- The fields of `hcloud.FloatingIP` that the code reads; `Typ` is the Go field `Type`. -/
structure FloatingIP where
  ID : Int
  Name : String
  IP : HcloudNotify.IP
  Typ : FloatingIPType
  Network : Option IPNet
  Server : Option Server
deriving DecidableEq, Repr

/-- The package-level `config` variable. -/
structure Config where
  LogPath : String
  HealthCheckPath : String
  NodeName : String
  FloatingIPs : List IP
  HcloudToken : String
deriving DecidableEq, Repr

/-- One iteration of the loop of `matchFloatingIP` (lines 46-55): `true` when
the iteration returns `true`. -/
def matchOne (f : FloatingIP) (myIP : IP) : Bool :=
  if f.Typ = FloatingIPTypeIPv4 ∧ myIP.Equal f.IP = true then true
  else if f.Typ = FloatingIPTypeIPv6 then
    match f.Network with
    | some n => n.Contains myIP
    | none => false
  else false

/-- The loop of `matchFloatingIP` over the configured addresses. -/
def matchLoop (f : FloatingIP) : List IP → Bool
  | [] => false
  | myIP :: rest => if matchOne f myIP = true then true else matchLoop f rest

/-- The function `matchFloatingIP` of `cmd.go`, with the global `config` as an argument. -/
def matchFloatingIP (config : Config) (f : FloatingIP) : Bool :=
  matchLoop f config.FloatingIPs

/-! ## The test fixture of `TestMatchFloatingIP` -/

/-- Result of `net.ParseIP("1.2.3.4")`: the 16-byte form. -/
def ip1234 : IP := [0, 0, 0, 0, 0, 0, 0, 0, 0, 0, 0xff, 0xff, 1, 2, 3, 4]

/-- Result of `net.ParseIP("1.2.3.5")`. -/
def ip1235 : IP := [0, 0, 0, 0, 0, 0, 0, 0, 0, 0, 0xff, 0xff, 1, 2, 3, 5]

/-- Result of `net.ParseIP("2600::1")`. -/
def ip2600_1 : IP := [0x26, 0, 0, 0, 0, 0, 0, 0, 0, 0, 0, 0, 0, 0, 0, 1]

/-- Mask of a `/64` IPv6 network, `net.CIDRMask(64, 128)`. -/
def mask64 : IPMask := [0xff, 0xff, 0xff, 0xff, 0xff, 0xff, 0xff, 0xff, 0, 0, 0, 0, 0, 0, 0, 0]

/-- Network of `net.ParseCIDR("2600::/64")`. -/
def net2600 : IPNet := ⟨[0x26, 0, 0, 0, 0, 0, 0, 0, 0, 0, 0, 0, 0, 0, 0, 0], mask64⟩

/-- Network of `net.ParseCIDR("2700::/64")`. -/
def net2700 : IPNet := ⟨[0x27, 0, 0, 0, 0, 0, 0, 0, 0, 0, 0, 0, 0, 0, 0, 0], mask64⟩

/-- The configuration of the test: addresses `1.2.3.4` and `2600::1`. -/
def testConfig : Config := ⟨"", "", "", [ip1234, ip2600_1], ""⟩

/-- An IPv4 record carrying `ip`, as built in the test. -/
def recV4 (ip : IP) : FloatingIP := ⟨0, "", ip, FloatingIPTypeIPv4, none, none⟩

/-- An IPv6 record carrying network `n`, as built in the test. -/
def recV6 (n : Option IPNet) : FloatingIP := ⟨0, "", [], FloatingIPTypeIPv6, n, none⟩

/-- The address is an IPv4 address in Go's sense: `To4` is not nil (4 bytes, or
16 bytes that start with the IPv4-in-IPv6 prefix). -/
def IP.isIPv4 (ip : IP) : Bool := ip.To4.isSome

/-- The address is an IPv6 address in Go's sense: 16 bytes and `To4` is nil. -/
def IP.isIPv6 (ip : IP) : Bool := decide (ip.length = IPv6len) && ip.To4.isNone

/-- The network `::ffff:1.2.3.0/120`, 16-byte address and 16-byte mask. -/
def netMapped : IPNet :=
  ⟨[0, 0, 0, 0, 0, 0, 0, 0, 0, 0, 0xff, 0xff, 1, 2, 3, 0],
   [0xff, 0xff, 0xff, 0xff, 0xff, 0xff, 0xff, 0xff, 0xff, 0xff, 0xff, 0xff, 0xff, 0xff, 0xff, 0]⟩

/-- A configuration whose only address is the IPv4 address `1.2.3.4`. -/
def configV4 : Config := ⟨"", "", "", [ip1234], ""⟩

/-! ## The hook `run` -/

/-- A Go `error` value returned by `run`: one made by `fmt.Errorf`, or the
`*multierror.Error` built by `multierror.Append`, with the messages of the errors it holds. -/
inductive Error where
  | errorf (msg : String)
  | multi (errs : List String)
deriving DecidableEq, Repr

/-- A call that `run` issues to the outside world. -/
inductive Call where
  | writeFile (path : String) (data : String)
  | serverGetByName (name : String)
  | floatingIPAll
  | floatingIPAssign (f : FloatingIP) (server : Server)
deriving DecidableEq, Repr

/-- The answers of the outside world to the calls of `run`.

* `lookupEnv` is `os.LookupEnv`, `parseIP` is `net.ParseIP` (`none` for nil);
* `writeFile k path data` is the error of the `k`-th call of `ioutil.WriteFile`
  (`k = 0` before reconciliation, `k = 1` after it), `none` for a nil error;
* `getByName name` is the result of `hc.Server.GetByName`: an error, or a server
  pointer, which may be nil;
* `all` is the result of `hc.FloatingIP.All`;
* `assign pos f server` is the error of the `hc.FloatingIP.Assign` call issued
  for the entry at position `pos` of the list, `none` for a nil error. -/
structure World where
  lookupEnv : String → Option String
  parseIP : String → Option IP
  writeFile : Nat → String → String → Option String
  getByName : String → Except String (Option Server)
  all : Except String (List FloatingIP)
  assign : Nat → FloatingIP → Server → Option String

/-- How `run` ends: it returns an error value (`none` for nil), or the process
panics on a nil pointer dereference. -/
inductive Outcome where
  | returned (err : Option Error)
  | panicked
deriving DecidableEq, Repr

/-- What `run` leaves behind: its outcome, the global `config`, and the calls it
issued, in order. -/
structure Result where
  outcome : Outcome
  config : Config
  calls : List Call
deriving DecidableEq, Repr

/-- The function `getEnvRequired` of `cmd.go`. -/
def getEnvRequired (w : World) (key : String) : Except String String :=
  match w.lookupEnv key with
  | some value => .ok value
  | none => .error ("required environment variable missing: " ++ key)

/-- Splitting of a character list at every `sep`; `cur` holds the current piece, reversed. -/
def splitChars (sep : Char) : List Char → List Char → List (List Char)
  | [], cur => [cur.reverse]
  | c :: cs, cur =>
    if c = sep then cur.reverse :: splitChars sep cs [] else splitChars sep cs (c :: cur)

/-- Go `strings.Split(s, ",")`. -/
def stringsSplit (s : String) : List String :=
  (splitChars ',' s.data []).map String.mk

/-- The loop of lines 122-129 over the comma-separated entries; the state is
`configErrs` (the messages appended so far) and `config`. -/
def parseLoop (w : World) : List String → List String × Config → List String × Config
  | [], st => st
  | floatingIP :: rest, (configErrs, config) =>
    match w.parseIP floatingIP with
    | none =>
      parseLoop w rest (configErrs ++ ["invalid IP address: " ++ floatingIP], config)
    | some ip =>
      parseLoop w rest (configErrs, { config with FloatingIPs := config.FloatingIPs ++ [ip] })

/-- Lines 105-130 of `run`: the three required variables are read in turn, every
failure is appended to `configErrs`.  A nil `configErrs` is the empty list. -/
def resolveConfig (w : World) (config : Config) : List String × Config :=
  let st1 : List String × Config :=
    match getEnvRequired w "NOTIFY_HCLOUD_TOKEN" with
    | .error err => ([err], config)
    | .ok hcloudToken => ([], { config with HcloudToken := hcloudToken })
  let st2 : List String × Config :=
    match getEnvRequired w "NOTIFY_NODE_NAME" with
    | .error err => (st1.1 ++ [err], st1.2)
    | .ok nodeName => (st1.1, { st1.2 with NodeName := nodeName })
  match getEnvRequired w "NOTIFY_FLOATING_IPS" with
  | .error err => (st2.1 ++ [err], st2.2)
  | .ok floatingIPs => parseLoop w (stringsSplit floatingIPs) st2

/-- The test of line 170: the entry has a server and its ID is the ID of `server`. -/
def pointsTo (f : FloatingIP) (server : Server) : Bool :=
  match f.Server with
  | some s => decide (s.ID = server.ID)
  | none => false

/-- The message of the error of lines 177-183. -/
def assignErrorMsg (f : FloatingIP) (server : Server) (err : String) : String :=
  "unable to assign floating IP name=" ++ f.Name ++ " id=" ++ toString f.ID
    ++ " to myself id=" ++ toString server.ID ++ ": " ++ err

/-- The loop of lines 165-186 from position `pos` on: the assign calls issued,
and the message of the error the loop returns with, if any. -/
def assignLoop (w : World) (config : Config) (server : Server) :
    Nat → List FloatingIP → List Call × Option String
  | _, [] => ([], none)
  | pos, floatingIP :: rest =>
    if matchFloatingIP config floatingIP = false then
      assignLoop w config server (pos + 1) rest
    else if pointsTo floatingIP server = true then
      assignLoop w config server (pos + 1) rest
    else
      match w.assign pos floatingIP server with
      | some err =>
        ([Call.floatingIPAssign floatingIP server], some (assignErrorMsg floatingIP server err))
      | none =>
        let r := assignLoop w config server (pos + 1) rest
        (Call.floatingIPAssign floatingIP server :: r.1, r.2)

/-- The block of lines 144-189, run when the state is `MASTER`: the remote calls
issued, and the outcome with which `run` ends inside the block, if it does. -/
def master (w : World) (config : Config) : List Call × Option Outcome :=
  match w.getByName config.NodeName with
  | .error err =>
    ([Call.serverGetByName config.NodeName],
      some (.returned (some (.errorf ("unable to find myself in the api: " ++ err)))))
  | .ok none => ([Call.serverGetByName config.NodeName], some .panicked)
  | .ok (some server) =>
    match w.all with
    | .error err =>
      ([Call.serverGetByName config.NodeName, Call.floatingIPAll],
        some (.returned (some (.errorf ("unable to list floating IPs in the api: " ++ err)))))
    | .ok floatingIPs =>
      let r := assignLoop w config server 0 floatingIPs
      (Call.serverGetByName config.NodeName :: Call.floatingIPAll :: r.1,
        r.2.map (fun msg => .returned (some (.errorf msg))))

/-- Lines 138-197 of `run`, reached when the configuration is valid. -/
def runState (w : World) (config : Config) (state : String) : Result :=
  match w.writeFile 0 config.HealthCheckPath state with
  | some err =>
    ⟨.returned (some (.errorf ("failed to health check path: " ++ err))), config,
      [Call.writeFile config.HealthCheckPath state]⟩
  | none =>
    let r : List Call × Option Outcome := if state = "MASTER" then master w config else ([], none)
    match r.2 with
    | some o => ⟨o, config, Call.writeFile config.HealthCheckPath state :: r.1⟩
    | none =>
      match w.writeFile 1 config.HealthCheckPath state with
      | some err =>
        ⟨.returned (some (.errorf ("failed to health check path: " ++ err))), config,
          Call.writeFile config.HealthCheckPath state :: r.1
            ++ [Call.writeFile config.HealthCheckPath state]⟩
      | none =>
        ⟨.returned none, config,
          Call.writeFile config.HealthCheckPath state :: r.1
            ++ [Call.writeFile config.HealthCheckPath state]⟩

/-- The function `run` of `cmd.go`; `config` is the value of the global on entry. -/
def run (w : World) (config : Config) (args : List String) : Result :=
  if args.length < 3 then
    ⟨.returned (some (.errorf "Not enough args given")), config, []⟩
  else
    let state := args.getD 2 ""
    let rc := resolveConfig w config
    if rc.1 ≠ [] then ⟨.returned (some (.multi rc.1)), rc.2, []⟩
    else runState w rc.2 state

/-! ## Observations on a list of calls -/

/-- The call is a call to the Hetzner API. -/
def Call.isRemote : Call → Bool
  | .writeFile _ _ => false
  | _ => true

/-- The call writes the health-check file. -/
def Call.isWrite : Call → Bool
  | .writeFile _ _ => true
  | _ => false

/-- The arguments of the assign calls of a list of calls, in order. -/
def assignCalls : List Call → List (FloatingIP × Server)
  | [] => []
  | .floatingIPAssign f s :: rest => (f, s) :: assignCalls rest
  | _ :: rest => assignCalls rest

/-! ## A concrete world -/

/-- The initial value of the global `config` (lines 18-28), the optional variables unset. -/
def config0 : Config :=
  ⟨"/var/run/keepalived.notify.log", "/var/run/keepalived.state", "", [], ""⟩

/-- A stand-in for `net.ParseIP` that knows the two addresses of the test. -/
def parseIPTest (s : String) : Option IP :=
  if s = "1.2.3.4" then some ip1234
  else if s = "2600::1" then some ip2600_1
  else none

/-- The environment of a node `node1` with token `t0` and both test addresses. -/
def envTest (key : String) : Option String :=
  if key = "NOTIFY_HCLOUD_TOKEN" then some "t0"
  else if key = "NOTIFY_NODE_NAME" then some "node1"
  else if key = "NOTIFY_FLOATING_IPS" then some "1.2.3.4,2600::1"
  else none

/-- The server the node resolves to. -/
def self1 : Server := ⟨1, "node1"⟩

/-- Another server. -/
def other2 : Server := ⟨2, "node2"⟩

/-- Three floating IPs that match the test addresses, none assigned to `self1`. -/
def fipA : FloatingIP := ⟨10, "a", ip1234, FloatingIPTypeIPv4, none, none⟩

/-- The second one: the IPv6 network `2600::/64`, assigned to another server. -/
def fipB : FloatingIP := ⟨11, "b", [], FloatingIPTypeIPv6, some net2600, some other2⟩

/-- The third one. -/
def fipC : FloatingIP := ⟨12, "c", ip1234, FloatingIPTypeIPv4, none, some other2⟩

/-- A world where every call succeeds but the assign call at position 1. -/
def worldFail2 : World where
  lookupEnv := envTest
  parseIP := parseIPTest
  writeFile := fun _ _ _ => none
  getByName := fun _ => .ok (some self1)
  all := .ok [fipA, fipB, fipC]
  assign := fun pos _ _ => if pos = 1 then some "locked" else none

/-- A world where the lookup of the node fails. -/
def worldNoSelf : World where
  lookupEnv := envTest
  parseIP := parseIPTest
  writeFile := fun _ _ _ => none
  getByName := fun _ => .error "server not found"
  all := .ok [fipA, fipB, fipC]
  assign := fun _ _ _ => none

/-- A world where no server has the name of the node: `GetByName` answers with a
nil server and a nil error. -/
def worldNotFound : World where
  lookupEnv := envTest
  parseIP := parseIPTest
  writeFile := fun _ _ _ => none
  getByName := fun _ => .ok none
  all := .ok [fipA, fipB, fipC]
  assign := fun _ _ _ => none

/-- A world with an empty environment. -/
def worldNoEnv : World where
  lookupEnv := fun _ => none
  parseIP := parseIPTest
  writeFile := fun _ _ _ => none
  getByName := fun _ => .ok (some self1)
  all := .ok []
  assign := fun _ _ _ => none

/-- A world where every call succeeds. -/
def worldOk : World where
  lookupEnv := envTest
  parseIP := parseIPTest
  writeFile := fun _ _ _ => none
  getByName := fun _ => .ok (some self1)
  all := .ok [fipA, fipB, fipC]
  assign := fun _ _ _ => none

/-- A floating IP that matches and points to `self1` already. -/
def fipMine : FloatingIP := ⟨13, "d", ip1234, FloatingIPTypeIPv4, none, some self1⟩

/-- A floating IP that matches no test address. -/
def fipOther : FloatingIP := ⟨14, "e", ip1235, FloatingIPTypeIPv4, none, none⟩

/-- A world where every matching floating IP points to `self1` already. -/
def worldConverged : World where
  lookupEnv := envTest
  parseIP := parseIPTest
  writeFile := fun _ _ _ => none
  getByName := fun _ => .ok (some self1)
  all := .ok [fipMine, fipOther]
  assign := fun _ _ _ => some "must not be called"

/-- The global `config` after `run` has read the environment `envTest`. -/
def configTest : Config :=
  ⟨"/var/run/keepalived.notify.log", "/var/run/keepalived.state", "node1",
    [ip1234, ip2600_1], "t0"⟩

/-- The write of the state `MASTER` to the default health-check path. -/
def writeMaster : Call := .writeFile "/var/run/keepalived.state" "MASTER"

/-- The entry needs an assign call: it matches a configured address and does
not point to `server` already. -/
def needsAssign (config : Config) (server : Server) (f : FloatingIP) : Bool :=
  matchFloatingIP config f && !pointsTo f server

/-- The message of the error of `getEnvRequired` for `key`. -/
def missingMsg (key : String) : String :=
  "required environment variable missing: " ++ key

/-- The configuration errors as the specification words them: one entry for
every required variable that is missing, in the order token, node name, address
list, then one entry for every entry of the address list that does not parse. -/
def expectedConfigErrs (w : World) : List String :=
  (if w.lookupEnv "NOTIFY_HCLOUD_TOKEN" = none then [missingMsg "NOTIFY_HCLOUD_TOKEN"] else [])
  ++ (if w.lookupEnv "NOTIFY_NODE_NAME" = none then [missingMsg "NOTIFY_NODE_NAME"] else [])
  ++ (match w.lookupEnv "NOTIFY_FLOATING_IPS" with
      | none => [missingMsg "NOTIFY_FLOATING_IPS"]
      | some s =>
        ((stringsSplit s).filter (fun e => (w.parseIP e).isNone)).map
          (fun e => "invalid IP address: " ++ e))

/-! ## Lemmas on matching -/

theorem matchLoop_eq_true_iff (f : FloatingIP) (l : List IP) :
    matchLoop f l = true ↔ ∃ myIP ∈ l, matchOne f myIP = true := by
  induction l with
  | nil => simp [matchLoop]
  | cons a rest ih =>
    by_cases h : matchOne f a = true
    · simp [matchLoop, h]
    · simp [matchLoop, h, ih]

theorem matchLoop_eq_false_iff (f : FloatingIP) (l : List IP) :
    matchLoop f l = false ↔ ∀ myIP ∈ l, matchOne f myIP = false := by
  rw [← Bool.not_eq_true, matchLoop_eq_true_iff]
  simp

theorem ipv4_ne_ipv6 : FloatingIPTypeIPv4 ≠ FloatingIPTypeIPv6 := by decide

theorem matchOne_ipv4 (f : FloatingIP) (myIP : IP) (h : f.Typ = FloatingIPTypeIPv4) :
    matchOne f myIP = myIP.Equal f.IP := by
  unfold matchOne
  simp only [h, true_and, ipv4_ne_ipv6, if_false]
  cases myIP.Equal f.IP <;> simp

theorem matchOne_ipv6 (f : FloatingIP) (myIP : IP) (h : f.Typ = FloatingIPTypeIPv6) :
    matchOne f myIP = (match f.Network with
      | some n => n.Contains myIP
      | none => false) := by
  unfold matchOne
  simp only [h, ipv4_ne_ipv6.symm, false_and, if_false, if_true]

theorem To4_length {ip x : IP} (h : ip.To4 = some x) : x.length = 4 := by
  unfold IP.To4 at h
  split_ifs at h with h1 h2
  · simp only [Option.some.injEq] at h
    subst h
    exact h1
  · simp only [Option.some.injEq] at h
    subst h
    have : ip.length = 16 := h2.1
    simp [this]

theorem To4_of_prefix {ip : IP} (hl : ip.length = IPv6len) (hp : ip.take 12 = v4InV6Prefix) :
    ip.To4 ≠ none := by
  have h10 : ip.take 10 = (ip.take 12).take 10 := by simp [List.take_take]
  have g10 : ip.getD 10 0 = (ip.take 12).getD 10 0 := by
    simp [List.getD_eq_getElem?_getD, List.getElem?_take]
  have g11 : ip.getD 11 0 = (ip.take 12).getD 11 0 := by
    simp [List.getD_eq_getElem?_getD, List.getElem?_take]
  have hz : isZeros (ip.take 10) = true := by rw [h10, hp]; decide
  have h1 : ip.getD 10 0 = 0xff := by rw [g10, hp]; decide
  have h2 : ip.getD 11 0 = 0xff := by rw [g11, hp]; decide
  have hl4 : ¬ ip.length = IPv4len := by rw [hl]; decide
  unfold IP.To4
  rw [if_neg hl4, if_pos ⟨hl, hz, h1, h2⟩]
  simp

theorem Equal_v6_v4_false {a b : IP} (ha : a.isIPv6 = true) (hb : b.isIPv4 = true) :
    a.Equal b = false := by
  simp only [IP.isIPv6, Bool.and_eq_true, decide_eq_true_eq, Option.isNone_iff_eq_none] at ha
  obtain ⟨hal, ha4⟩ := ha
  simp only [IP.isIPv4, Option.isSome_iff_exists] at hb
  obtain ⟨x, hx⟩ := hb
  unfold IP.Equal
  by_cases hlen : a.length = b.length
  · rw [if_pos hlen]
    simp only [decide_eq_false_iff_not]
    intro hab
    rw [hab, hx] at ha4
    cases ha4
  · rw [if_neg hlen]
    have h4 : ¬ (a.length = IPv4len ∧ b.length = IPv6len) := by
      rintro ⟨h, _⟩
      rw [hal] at h
      revert h
      decide
    rw [if_neg h4]
    split_ifs with h3
    · have hp : ¬ a.take 12 = v4InV6Prefix := fun hp => To4_of_prefix hal hp ha4
      simp [hp]
    · rfl

theorem Contains_v6_v4_false {n : IPNet} {ip : IP} (hn : n.IP.isIPv6 = true)
    (hip : ip.isIPv4 = true) : n.Contains ip = false := by
  simp only [IP.isIPv6, Bool.and_eq_true, decide_eq_true_eq, Option.isNone_iff_eq_none] at hn
  obtain ⟨hnl, hn4⟩ := hn
  simp only [IP.isIPv4, Option.isSome_iff_exists] at hip
  obtain ⟨x, hx⟩ := hip
  have hxl := To4_length hx
  have hnm : (networkNumberAndMask n).1.length = 0 ∨ (networkNumberAndMask n).1.length = 16 := by
    unfold networkNumberAndMask
    rw [hn4]
    simp only [hnl, ne_eq, not_true_eq_false, if_false]
    split_ifs
    · left; rfl
    · right; exact hnl
    · left; rfl
  unfold IPNet.Contains
  simp only [hx]
  rw [if_pos]
  rw [hxl]
  rcases hnm with h | h <;> rw [h] <;> decide

theorem Equal_iff_To16 (a b : IP) (ha : a.length = 4 ∨ a.length = 16)
    (hb : b.length = 4 ∨ b.length = 16) :
    a.Equal b = true ↔ a.To16 = b.To16 := by
  unfold IP.Equal IP.To16 IPv4len IPv6len
  rcases ha with ha | ha <;> rcases hb with hb | hb <;> simp [ha, hb]
  · constructor
    · rintro ⟨h1, h2⟩
      rw [h2, ← h1, List.take_append_drop]
    · intro h
      rw [← h]
      simp [v4InV6Prefix]
  · constructor
    · rintro ⟨h1, h2⟩
      rw [← h2, ← h1, List.take_append_drop]
    · intro h
      rw [h]
      simp [v4InV6Prefix]

/-! ## Matching: the claims -/

/-- C1: for an IPv4 record, `matchFloatingIP` returns true exactly when some
configured address is equal (Go `IP.Equal`) to the address of the record; for
addresses of 4 or 16 bytes that is: they have the same 16-byte form. -/
theorem matchFloatingIP_ipv4_iff (config : Config) (f : FloatingIP)
    (h : f.Typ = FloatingIPTypeIPv4) :
    (matchFloatingIP config f = true ↔ ∃ myIP ∈ config.FloatingIPs, myIP.Equal f.IP = true)
    ∧ ((f.IP.length = 4 ∨ f.IP.length = 16)
      → (∀ myIP ∈ config.FloatingIPs, myIP.length = 4 ∨ myIP.length = 16)
      → (matchFloatingIP config f = true
          ↔ ∃ myIP ∈ config.FloatingIPs, myIP.To16 = f.IP.To16)) := by
  have hmain : matchFloatingIP config f = true
      ↔ ∃ myIP ∈ config.FloatingIPs, myIP.Equal f.IP = true := by
    unfold matchFloatingIP
    rw [matchLoop_eq_true_iff]
    simp only [matchOne_ipv4 f _ h]
  refine ⟨hmain, ?_⟩
  intro hf hc
  rw [hmain]
  constructor
  · rintro ⟨myIP, hm, he⟩
    exact ⟨myIP, hm, (Equal_iff_To16 myIP f.IP (hc myIP hm) hf).mp he⟩
  · rintro ⟨myIP, hm, he⟩
    exact ⟨myIP, hm, (Equal_iff_To16 myIP f.IP (hc myIP hm) hf).mpr he⟩

/-- Witness of C1 on the fixture of the test: configured `1.2.3.4` and `2600::1`,
record `1.2.3.4` matches, record `1.2.3.5` does not. -/
theorem matchFloatingIP_ipv4_iff_witness :
    (recV4 ip1234).Typ = FloatingIPTypeIPv4
    ∧ (matchFloatingIP testConfig (recV4 ip1234) = true
        ↔ ∃ myIP ∈ testConfig.FloatingIPs, myIP.Equal (recV4 ip1234).IP = true)
    ∧ matchFloatingIP testConfig (recV4 ip1234) = true
    ∧ matchFloatingIP testConfig (recV4 ip1235) = false :=
  ⟨rfl, (matchFloatingIP_ipv4_iff testConfig (recV4 ip1234) rfl).1,
    (matchFloatingIP_ipv4_iff testConfig (recV4 ip1234) rfl).1.mpr
      ⟨ip1234, by decide, by decide⟩,
    by decide⟩

/-- C2: for an IPv6 record, `matchFloatingIP` returns true exactly when the
network of the record is not nil and contains (Go `IPNet.Contains`) some
configured address; with a nil network it returns false for every configuration. -/
theorem matchFloatingIP_ipv6_iff (config : Config) (f : FloatingIP)
    (h : f.Typ = FloatingIPTypeIPv6) :
    (matchFloatingIP config f = true
      ↔ ∃ n, f.Network = some n ∧ ∃ myIP ∈ config.FloatingIPs, n.Contains myIP = true)
    ∧ (f.Network = none → matchFloatingIP config f = false) := by
  unfold matchFloatingIP
  constructor
  · rw [matchLoop_eq_true_iff]
    simp only [matchOne_ipv6 f _ h]
    cases hn : f.Network with
    | none => simp
    | some n => simp
  · intro hn
    rw [matchLoop_eq_false_iff]
    intro myIP _
    rw [matchOne_ipv6 f _ h, hn]

/-- Witness of C2 on the fixture of the test: network `2600::/64` matches,
network `2700::/64` does not, a nil network does not. -/
theorem matchFloatingIP_ipv6_iff_witness :
    (recV6 (some net2600)).Typ = FloatingIPTypeIPv6
    ∧ matchFloatingIP testConfig (recV6 (some net2600)) = true
    ∧ matchFloatingIP testConfig (recV6 (some net2700)) = false
    ∧ matchFloatingIP testConfig (recV6 none) = false :=
  ⟨rfl,
    (matchFloatingIP_ipv6_iff testConfig (recV6 (some net2600)) rfl).1.mpr
      ⟨net2600, rfl, ip2600_1, by decide, by decide⟩,
    by decide,
    (matchFloatingIP_ipv6_iff testConfig (recV6 none) rfl).2 rfl⟩

/-- C9, counterexample: the record of type IPv6 with network `::ffff:1.2.3.0/120`
matches a configuration whose only address is the IPv4 address `1.2.3.4`. -/
theorem matchFloatingIP_cross_family_counterexample :
    (recV6 (some netMapped)).Typ = FloatingIPTypeIPv6
    ∧ (∀ ip ∈ configV4.FloatingIPs, ip.isIPv4 = true)
    ∧ matchFloatingIP configV4 (recV6 (some netMapped)) = true := by
  decide

/-- C9, amended: an IPv6 record whose network is nil or has an IPv6 network
address (16 bytes, not IPv4-mapped) matches no list of IPv4 addresses, and an
IPv4 record carrying an IPv4 address matches no list of IPv6 addresses. -/
theorem matchFloatingIP_no_cross_family (config : Config) (f : FloatingIP) :
    (f.Typ = FloatingIPTypeIPv6 → (∀ n, f.Network = some n → n.IP.isIPv6 = true)
        → (∀ ip ∈ config.FloatingIPs, ip.isIPv4 = true) → matchFloatingIP config f = false)
    ∧ (f.Typ = FloatingIPTypeIPv4 → f.IP.isIPv4 = true
        → (∀ ip ∈ config.FloatingIPs, ip.isIPv6 = true) → matchFloatingIP config f = false) := by
  unfold matchFloatingIP
  constructor
  · intro ht hn hc
    rw [matchLoop_eq_false_iff]
    intro myIP hm
    rw [matchOne_ipv6 f _ ht]
    cases hnet : f.Network with
    | none => rfl
    | some n => exact Contains_v6_v4_false (hn n hnet) (hc myIP hm)
  · intro ht hf hc
    rw [matchLoop_eq_false_iff]
    intro myIP hm
    rw [matchOne_ipv4 f _ ht]
    exact Equal_v6_v4_false (hc myIP hm) hf

/-- Witness of the amended C9: the records of the test against single-family lists. -/
theorem matchFloatingIP_no_cross_family_witness :
    matchFloatingIP configV4 (recV6 (some net2600)) = false
    ∧ matchFloatingIP ⟨"", "", "", [ip2600_1], ""⟩ (recV4 ip1234) = false :=
  ⟨(matchFloatingIP_no_cross_family configV4 (recV6 (some net2600))).1 rfl
      (by intro n hn; cases hn; decide) (by decide),
    (matchFloatingIP_no_cross_family ⟨"", "", "", [ip2600_1], ""⟩ (recV4 ip1234)).2 rfl
      (by decide) (by decide)⟩

/-! ## Lemmas on `run` -/

theorem parseLoop_errs (w : World) (l : List String) (errs : List String) (config : Config) :
    (parseLoop w l (errs, config)).1
      = errs ++ (l.filter (fun e => (w.parseIP e).isNone)).map
          (fun e => "invalid IP address: " ++ e) := by
  induction l generalizing errs config with
  | nil => simp [parseLoop]
  | cons a rest ih =>
    cases h : w.parseIP a with
    | none => simp [parseLoop, h, ih]
    | some ip => simp [parseLoop, h, ih]

theorem resolveConfig_errs (w : World) (config : Config) :
    (resolveConfig w config).1 = expectedConfigErrs w := by
  unfold resolveConfig expectedConfigErrs getEnvRequired missingMsg
  cases h1 : w.lookupEnv "NOTIFY_HCLOUD_TOKEN" <;>
    cases h2 : w.lookupEnv "NOTIFY_NODE_NAME" <;>
    cases h3 : w.lookupEnv "NOTIFY_FLOATING_IPS" <;>
    simp [parseLoop_errs]

theorem length_of_getElem? {args : List String} {state : String}
    (h : args[2]? = some state) : ¬ args.length < 3 ∧ args.getD 2 "" = state := by
  constructor
  · intro hlt
    have : args[2]? = none := List.getElem?_eq_none (by omega)
    rw [this] at h
    cases h
  · simp [List.getD_eq_getElem?_getD, h]

theorem run_eq_runState (w : World) (config cfg : Config) (args : List String) (state : String)
    (hargs : args[2]? = some state) (hcfg : resolveConfig w config = ([], cfg)) :
    run w config args = runState w cfg state := by
  obtain ⟨h3, hs⟩ := length_of_getElem? hargs
  unfold run
  simp only [h3, if_false, hcfg, ne_eq, not_true_eq_false, hs]

theorem assignLoop_cons (w : World) (config : Config) (server : Server) (pos : Nat)
    (f : FloatingIP) (rest : List FloatingIP) :
    assignLoop w config server pos (f :: rest)
      = if matchFloatingIP config f = false then assignLoop w config server (pos + 1) rest
        else if pointsTo f server = true then assignLoop w config server (pos + 1) rest
        else
          match w.assign pos f server with
          | some err => ([Call.floatingIPAssign f server], some (assignErrorMsg f server err))
          | none =>
            (Call.floatingIPAssign f server :: (assignLoop w config server (pos + 1) rest).1,
              (assignLoop w config server (pos + 1) rest).2) := by
  rw [assignLoop]

theorem assignLoop_skip (w : World) (config : Config) (server : Server) (l : List FloatingIP)
    (h : ∀ f ∈ l, needsAssign config server f = false) (pos : Nat) :
    assignLoop w config server pos l = ([], none) := by
  induction l generalizing pos with
  | nil => rfl
  | cons f rest ih =>
    have hf := h f (List.mem_cons_self _ _)
    have hr := ih (fun g hg => h g (List.mem_cons_of_mem _ hg)) (pos + 1)
    unfold needsAssign at hf
    unfold assignLoop
    cases hm : matchFloatingIP config f with
    | false => simp [hr]
    | true =>
      cases hp : pointsTo f server with
      | false => simp [hm, hp] at hf
      | true => simp [hr]

theorem assignLoop_append (w : World) (config : Config) (server : Server)
    (pre rest : List FloatingIP) (pos : Nat)
    (h : ∀ i g, pre[i]? = some g → needsAssign config server g = true
      → w.assign (pos + i) g server = none) :
    assignLoop w config server pos (pre ++ rest)
      = (((pre.filter (needsAssign config server)).map (fun g => Call.floatingIPAssign g server))
          ++ (assignLoop w config server (pos + pre.length) rest).1,
         (assignLoop w config server (pos + pre.length) rest).2) := by
  induction pre generalizing pos with
  | nil => simp
  | cons f tl ih =>
    have htl : ∀ i g, tl[i]? = some g → needsAssign config server g = true
        → w.assign (pos + 1 + i) g server = none := by
      intro i g hg hn
      have := h (i + 1) g (by simpa using hg) hn
      rw [← this]
      congr 1
      omega
    have hr := ih (pos + 1) htl
    have hpos : pos + 1 + tl.length = pos + (f :: tl).length := by
      simp only [List.length_cons]; omega
    rw [hpos] at hr
    have hf := h 0 f (by simp)
    simp only [Nat.add_zero] at hf
    rw [List.cons_append, assignLoop_cons]
    cases hm : matchFloatingIP config f with
    | false => simp [hr, needsAssign, hm]
    | true =>
      cases hp : pointsTo f server with
      | true => simp [hr, needsAssign, hm, hp]
      | false =>
        have hn : needsAssign config server f = true := by simp [needsAssign, hm, hp]
        simp [hr, hn, hf hn]

theorem assignLoop_fail (w : World) (config : Config) (server : Server)
    (pre post : List FloatingIP) (f : FloatingIP) (err : String)
    (hpre : ∀ i g, pre[i]? = some g → needsAssign config server g = true
      → w.assign i g server = none)
    (hf : needsAssign config server f = true)
    (hfail : w.assign pre.length f server = some err) :
    assignLoop w config server 0 (pre ++ f :: post)
      = (((pre.filter (needsAssign config server)).map (fun g => Call.floatingIPAssign g server))
          ++ [Call.floatingIPAssign f server],
         some (assignErrorMsg f server err)) := by
  rw [assignLoop_append w config server pre (f :: post) 0 (by simpa using hpre)]
  simp only [needsAssign, Bool.and_eq_true, Bool.not_eq_true'] at hf
  simp only [Nat.zero_add]
  rw [assignLoop_cons]
  simp [hf.1, hf.2, hfail]

theorem assignLoop_ok (w : World) (config : Config) (server : Server) (l : List FloatingIP)
    (h : ∀ i g, l[i]? = some g → needsAssign config server g = true
      → w.assign i g server = none) :
    assignLoop w config server 0 l
      = ((l.filter (needsAssign config server)).map (fun g => Call.floatingIPAssign g server),
         none) := by
  have := assignLoop_append w config server l [] 0 (by simpa using h)
  simpa [assignLoop] using this

theorem assignCalls_append (a b : List Call) :
    assignCalls (a ++ b) = assignCalls a ++ assignCalls b := by
  induction a with
  | nil => rfl
  | cons c tl ih => cases c <;> simp [assignCalls, ih]

theorem assignCalls_map (l : List FloatingIP) (server : Server) :
    assignCalls (l.map (fun g => Call.floatingIPAssign g server))
      = l.map (fun g => (g, server)) := by
  induction l with
  | nil => rfl
  | cons c tl ih => simp [assignCalls, ih]

theorem assignLoop_isRemote (w : World) (config : Config) (server : Server)
    (l : List FloatingIP) (pos : Nat) :
    ∀ c ∈ (assignLoop w config server pos l).1, c.isWrite = false := by
  induction l generalizing pos with
  | nil => simp [assignLoop]
  | cons f tl ih =>
    unfold assignLoop
    split_ifs
    · exact ih (pos + 1)
    · exact ih (pos + 1)
    · cases w.assign pos f server with
      | some err => simp [Call.isWrite]
      | none =>
        intro c hc
        simp only [List.mem_cons] at hc
        rcases hc with rfl | hc
        · rfl
        · exact ih (pos + 1) c hc

theorem master_isRemote (w : World) (config : Config) :
    ∀ c ∈ (master w config).1, c.isWrite = false := by
  unfold master
  cases w.getByName config.NodeName with
  | error e => simp [Call.isWrite]
  | ok o =>
    cases o with
    | none => simp [Call.isWrite]
    | some server =>
      cases w.all with
      | error e => simp [Call.isWrite]
      | ok l =>
        intro c hc
        simp only [List.mem_cons] at hc
        rcases hc with rfl | rfl | hc
        · rfl
        · rfl
        · exact assignLoop_isRemote w config server l 0 c hc

theorem filter_isWrite_remote (l : List Call) (h : ∀ c ∈ l, c.isWrite = false) :
    l.filter Call.isWrite = [] := by
  rw [List.filter_eq_nil_iff]
  intro c hc
  simp [h c hc]

theorem needsAssign_eq (config : Config) (server : Server) (f : FloatingIP) :
    needsAssign config server f
      = (matchFloatingIP config f && f.Server.all (fun s => decide (s.ID ≠ server.ID))) := by
  unfold needsAssign pointsTo
  cases f.Server with
  | none => simp
  | some s => simp

theorem master_eq (w : World) (cfg : Config) (server : Server) (l : List FloatingIP)
    (hself : w.getByName cfg.NodeName = .ok (some server)) (hall : w.all = .ok l) :
    master w cfg
      = (Call.serverGetByName cfg.NodeName :: Call.floatingIPAll
          :: (assignLoop w cfg server 0 l).1,
         (assignLoop w cfg server 0 l).2.map (fun msg => Outcome.returned (some (.errorf msg)))) := by
  unfold master
  simp only [hself, hall]

/-! ## `run`: the claims -/

/-- C3, counterexample: three matching floating IPs, none assigned to self, the
assign call fails for the second one.  `run` issues the assign calls of the first
and the second and returns; the third one is never passed to assign. -/
theorem run_assign_failure_counterexample :
    (run worldFail2 config0 ["a", "b", "MASTER"]).config = configTest
    ∧ matchFloatingIP configTest fipC = true
    ∧ pointsTo fipC self1 = false
    ∧ (run worldFail2 config0 ["a", "b", "MASTER"]).calls
        = [writeMaster, .serverGetByName "node1", .floatingIPAll,
           .floatingIPAssign fipA self1, .floatingIPAssign fipB self1]
    ∧ Call.floatingIPAssign fipC self1 ∉ (run worldFail2 config0 ["a", "b", "MASTER"]).calls
    ∧ (run worldFail2 config0 ["a", "b", "MASTER"]).outcome
        = .returned (some (.errorf
            "unable to assign floating IP name=b id=11 to myself id=1: locked")) := by
  decide

/-- C3, amended: in a MASTER run where self lookup and listing succeed, a failing
assign call stops processing.  When the assign calls of the entries before `f`
succeed and the one of `f` fails, `run` returns the error that names `f`, and the
calls it has issued are the first write, the lookup, the listing, the assign
calls of the earlier entries that need one, and the assign call of `f`: no call
for a later entry, and no second write. -/
theorem run_assign_failure_stops (w : World) (config cfg : Config) (args : List String)
    (server : Server) (pre post : List FloatingIP) (f : FloatingIP) (err : String)
    (hargs : args[2]? = some "MASTER")
    (hcfg : resolveConfig w config = ([], cfg))
    (hw0 : w.writeFile 0 cfg.HealthCheckPath "MASTER" = none)
    (hself : w.getByName cfg.NodeName = .ok (some server))
    (hall : w.all = .ok (pre ++ f :: post))
    (hpre : ∀ i g, pre[i]? = some g → needsAssign cfg server g = true
      → w.assign i g server = none)
    (hf : matchFloatingIP cfg f = true ∧ pointsTo f server = false)
    (hfail : w.assign pre.length f server = some err) :
    (run w config args).outcome = .returned (some (.errorf (assignErrorMsg f server err)))
    ∧ (run w config args).calls
        = [Call.writeFile cfg.HealthCheckPath "MASTER", Call.serverGetByName cfg.NodeName,
            Call.floatingIPAll]
          ++ (pre.filter (needsAssign cfg server)).map (fun g => Call.floatingIPAssign g server)
          ++ [Call.floatingIPAssign f server] := by
  have hn : needsAssign cfg server f = true := by simp [needsAssign, hf.1, hf.2]
  rw [run_eq_runState w config cfg args "MASTER" hargs hcfg]
  unfold runState
  simp only [hw0, if_true, master_eq w cfg server _ hself hall,
    assignLoop_fail w cfg server pre post f err hpre hn hfail, Option.map_some']
  simp

/-- Witness of the amended C3: the world of the counterexample. -/
theorem run_assign_failure_stops_witness :
    (run worldFail2 config0 ["a", "b", "MASTER"]).outcome
      = .returned (some (.errorf (assignErrorMsg fipB self1 "locked")))
    ∧ (run worldFail2 config0 ["a", "b", "MASTER"]).calls
        = [Call.writeFile configTest.HealthCheckPath "MASTER",
            Call.serverGetByName configTest.NodeName, Call.floatingIPAll]
          ++ ([fipA].filter (needsAssign configTest self1)).map
              (fun g => Call.floatingIPAssign g self1)
          ++ [Call.floatingIPAssign fipB self1] :=
  run_assign_failure_stops worldFail2 config0 configTest ["a", "b", "MASTER"] self1
    [fipA] [fipC] fipB "locked" (by decide) (by decide) rfl rfl rfl
    (by
      intro i g hg _
      cases i with
      | zero => rfl
      | succ j => simp at hg)
    (by decide) rfl

/-- C4: in a MASTER run where self lookup and listing succeed and every floating
IP that matches a configured address points to self already, `run` issues no
assign call and goes on to the second write: it returns nil unless that write fails. -/
theorem run_converged_no_assign (w : World) (config cfg : Config) (args : List String)
    (server : Server) (floatingIPs : List FloatingIP)
    (hargs : args[2]? = some "MASTER")
    (hcfg : resolveConfig w config = ([], cfg))
    (hw0 : w.writeFile 0 cfg.HealthCheckPath "MASTER" = none)
    (hself : w.getByName cfg.NodeName = .ok (some server))
    (hall : w.all = .ok floatingIPs)
    (hconv : ∀ f ∈ floatingIPs, matchFloatingIP cfg f = true
      → ∃ s, f.Server = some s ∧ s.ID = server.ID) :
    assignCalls (run w config args).calls = []
    ∧ (run w config args).calls
        = [Call.writeFile cfg.HealthCheckPath "MASTER", Call.serverGetByName cfg.NodeName,
            Call.floatingIPAll, Call.writeFile cfg.HealthCheckPath "MASTER"]
    ∧ (run w config args).outcome
        = .returned ((w.writeFile 1 cfg.HealthCheckPath "MASTER").map
            (fun e => Error.errorf ("failed to health check path: " ++ e))) := by
  have hskip : ∀ f ∈ floatingIPs, needsAssign cfg server f = false := by
    intro f hf
    unfold needsAssign
    cases hm : matchFloatingIP cfg f with
    | false => rfl
    | true =>
      obtain ⟨s, hs, hid⟩ := hconv f hf hm
      simp [pointsTo, hs, hid]
  rw [run_eq_runState w config cfg args "MASTER" hargs hcfg]
  unfold runState
  simp only [hw0, if_true, master_eq w cfg server _ hself hall,
    assignLoop_skip w cfg server floatingIPs hskip 0, Option.map_none']
  cases w.writeFile 1 cfg.HealthCheckPath "MASTER" <;> simp [assignCalls]

/-- Witness of C4: a world where the only matching floating IP points to self,
and where any assign call would fail. -/
theorem run_converged_no_assign_witness :
    assignCalls (run worldConverged config0 ["a", "b", "MASTER"]).calls = []
    ∧ (run worldConverged config0 ["a", "b", "MASTER"]).outcome = .returned none :=
  have h := run_converged_no_assign worldConverged config0 configTest ["a", "b", "MASTER"]
    self1 [fipMine, fipOther] (by decide) (by decide) rfl rfl rfl (by decide)
  ⟨h.1, h.2.2⟩

/-- C5: in a MASTER run on a node that the API does not know, `GetByName`
answers with a nil server and a nil error; the test of line 151 lets it pass and
line 154 dereferences the nil server.  `run` issues neither a list call nor an
assign call, but it panics: it does not return an error. -/
theorem run_lookup_not_found_panics :
    resolveConfig worldNotFound config0 = ([], configTest)
    ∧ worldNotFound.getByName configTest.NodeName = .ok none
    ∧ (run worldNotFound config0 ["a", "b", "MASTER"]).outcome = .panicked
    ∧ (∀ err, (run worldNotFound config0 ["a", "b", "MASTER"]).outcome ≠ .returned err)
    ∧ (run worldNotFound config0 ["a", "b", "MASTER"]).calls
        = [writeMaster, .serverGetByName "node1"] := by
  refine ⟨by decide, rfl, by decide, ?_, by decide⟩
  intro err h
  have hp : (run worldNotFound config0 ["a", "b", "MASTER"]).outcome = .panicked := by decide
  rw [hp] at h
  cases h

/-- The error path of the lookup: in a MASTER run, when `GetByName` returns an
error, `run` returns an error and has issued neither a list call nor an assign call. -/
theorem run_lookup_failure (w : World) (config cfg : Config) (args : List String)
    (err : String)
    (hargs : args[2]? = some "MASTER")
    (hcfg : resolveConfig w config = ([], cfg))
    (hw0 : w.writeFile 0 cfg.HealthCheckPath "MASTER" = none)
    (hself : w.getByName cfg.NodeName = .error err) :
    (run w config args).outcome
        = .returned (some (.errorf ("unable to find myself in the api: " ++ err)))
    ∧ Call.floatingIPAll ∉ (run w config args).calls
    ∧ assignCalls (run w config args).calls = []
    ∧ (run w config args).calls
        = [Call.writeFile cfg.HealthCheckPath "MASTER", Call.serverGetByName cfg.NodeName] := by
  rw [run_eq_runState w config cfg args "MASTER" hargs hcfg]
  unfold runState master
  simp [hw0, hself, assignCalls]

/-- The error path of the lookup on a world that holds three floating IPs. -/
theorem run_lookup_failure_witness :
    (run worldNoSelf config0 ["a", "b", "MASTER"]).outcome
        = .returned (some (.errorf ("unable to find myself in the api: " ++ "server not found")))
    ∧ Call.floatingIPAll ∉ (run worldNoSelf config0 ["a", "b", "MASTER"]).calls
    ∧ assignCalls (run worldNoSelf config0 ["a", "b", "MASTER"]).calls = []
    ∧ (run worldNoSelf config0 ["a", "b", "MASTER"]).calls
        = [Call.writeFile configTest.HealthCheckPath "MASTER",
            Call.serverGetByName configTest.NodeName] :=
  run_lookup_failure worldNoSelf config0 configTest ["a", "b", "MASTER"] "server not found"
    (by decide) (by decide) rfl rfl

/-- C6: with at least three arguments and a state other than `MASTER`, `run`
issues no remote call, whatever the environment and the configured addresses. -/
theorem run_not_master_no_remote (w : World) (config : Config) (args : List String)
    (h3 : 3 ≤ args.length) (hstate : args.getD 2 "" ≠ "MASTER") :
    ∀ c ∈ (run w config args).calls, c.isRemote = false := by
  unfold run
  rw [if_neg (by omega)]
  simp only
  split_ifs with hc
  · simp
  · unfold runState
    simp only [hstate, if_false]
    cases w.writeFile 0 (resolveConfig w config).2.HealthCheckPath (args.getD 2 "") with
    | some e => simp [Call.isRemote]
    | none =>
      cases w.writeFile 1 (resolveConfig w config).2.HealthCheckPath (args.getD 2 "") with
      | some e => simp [Call.isRemote]
      | none => simp [Call.isRemote]

/-- Witness of C6: a transition to `BACKUP` on a node with three floating IPs. -/
theorem run_not_master_no_remote_witness :
    3 ≤ ["a", "b", "BACKUP"].length ∧ ["a", "b", "BACKUP"].getD 2 "" ≠ "MASTER"
    ∧ ∀ c ∈ (run worldOk config0 ["a", "b", "BACKUP"]).calls, c.isRemote = false :=
  ⟨by decide, by decide,
    run_not_master_no_remote worldOk config0 ["a", "b", "BACKUP"] (by decide) (by decide)⟩

theorem runState_abort (w : World) (cfg : Config) (o : Outcome)
    (hw0 : w.writeFile 0 cfg.HealthCheckPath "MASTER" = none)
    (ho : (master w cfg).2 = some o) :
    runState w cfg "MASTER"
      = ⟨o, cfg, Call.writeFile cfg.HealthCheckPath "MASTER" :: (master w cfg).1⟩ := by
  unfold runState
  simp only [hw0, if_true, ho]

theorem runState_complete (w : World) (cfg : Config)
    (hw0 : w.writeFile 0 cfg.HealthCheckPath "MASTER" = none)
    (ho : (master w cfg).2 = none) :
    (runState w cfg "MASTER").calls
        = Call.writeFile cfg.HealthCheckPath "MASTER" :: (master w cfg).1
          ++ [Call.writeFile cfg.HealthCheckPath "MASTER"]
    ∧ (runState w cfg "MASTER").outcome
        = .returned ((w.writeFile 1 cfg.HealthCheckPath "MASTER").map
            (fun e => Error.errorf ("failed to health check path: " ++ e))) := by
  unfold runState
  simp only [hw0, if_true, ho]
  cases w.writeFile 1 cfg.HealthCheckPath "MASTER" <;> simp

theorem runState_not_master (w : World) (cfg : Config) (state : String)
    (hw0 : w.writeFile 0 cfg.HealthCheckPath state = none) (hs : state ≠ "MASTER") :
    (runState w cfg state).calls
        = [Call.writeFile cfg.HealthCheckPath state, Call.writeFile cfg.HealthCheckPath state] := by
  unfold runState
  simp only [hw0, hs, if_false]
  cases w.writeFile 1 cfg.HealthCheckPath state <;> simp

theorem runState_head (w : World) (cfg : Config) (state : String) :
    (runState w cfg state).calls.head? = some (Call.writeFile cfg.HealthCheckPath state) := by
  unfold runState
  cases w.writeFile 0 cfg.HealthCheckPath state with
  | some e => rfl
  | none =>
    simp only
    split
    · rfl
    · cases w.writeFile 1 cfg.HealthCheckPath state <;> rfl

theorem writes_abort (cfg : Config) (state : String) (l : List Call)
    (h : ∀ c ∈ l, c.isWrite = false) :
    (Call.writeFile cfg.HealthCheckPath state :: l).filter Call.isWrite
      = [Call.writeFile cfg.HealthCheckPath state] := by
  simp [List.filter_cons, Call.isWrite, filter_isWrite_remote l h]

theorem writes_complete (cfg : Config) (state : String) (l : List Call)
    (h : ∀ c ∈ l, c.isWrite = false) :
    (Call.writeFile cfg.HealthCheckPath state :: l
        ++ [Call.writeFile cfg.HealthCheckPath state]).filter Call.isWrite
      = [Call.writeFile cfg.HealthCheckPath state, Call.writeFile cfg.HealthCheckPath state] := by
  simp [List.filter_cons, Call.isWrite, filter_isWrite_remote l h]

/-- C7, counterexample: with two arguments and an empty environment, `run`
returns the error of the argument check, which names none of the three
missing variables. -/
theorem run_config_errors_counterexample :
    worldNoEnv.lookupEnv "NOTIFY_HCLOUD_TOKEN" = none
    ∧ worldNoEnv.lookupEnv "NOTIFY_NODE_NAME" = none
    ∧ worldNoEnv.lookupEnv "NOTIFY_FLOATING_IPS" = none
    ∧ (run worldNoEnv config0 ["a", "b"]).outcome
        = .returned (some (.errorf "Not enough args given")) := by
  decide

/-- C7, amended: for an invocation with at least three arguments, when the
three required variables are missing the error returned by `run` holds the three
messages; and whenever a required variable is missing or an address entry does
not parse, `run` returns, before any call, the error that holds one entry for
each of them (`expectedConfigErrs`). -/
theorem run_config_errors (w : World) (config : Config) (args : List String)
    (h3 : 3 ≤ args.length) :
    (w.lookupEnv "NOTIFY_HCLOUD_TOKEN" = none → w.lookupEnv "NOTIFY_NODE_NAME" = none
      → w.lookupEnv "NOTIFY_FLOATING_IPS" = none
      → (run w config args).outcome
          = .returned (some (.multi [missingMsg "NOTIFY_HCLOUD_TOKEN",
              missingMsg "NOTIFY_NODE_NAME", missingMsg "NOTIFY_FLOATING_IPS"])))
    ∧ (expectedConfigErrs w ≠ []
      → (run w config args).outcome = .returned (some (.multi (expectedConfigErrs w)))
        ∧ (run w config args).calls = [])
    ∧ (∀ key ∈ ["NOTIFY_HCLOUD_TOKEN", "NOTIFY_NODE_NAME", "NOTIFY_FLOATING_IPS"],
        w.lookupEnv key = none → missingMsg key ∈ expectedConfigErrs w)
    ∧ (∀ s e, w.lookupEnv "NOTIFY_FLOATING_IPS" = some s → e ∈ stringsSplit s
        → w.parseIP e = none → ("invalid IP address: " ++ e) ∈ expectedConfigErrs w) := by
  have hrun : expectedConfigErrs w ≠ []
      → (run w config args).outcome = .returned (some (.multi (expectedConfigErrs w)))
        ∧ (run w config args).calls = [] := by
    intro hne
    unfold run
    rw [if_neg (by omega)]
    simp only [resolveConfig_errs, if_pos hne, and_self]
  refine ⟨?_, hrun, ?_, ?_⟩
  · intro h1 h2 h5
    have he : expectedConfigErrs w = [missingMsg "NOTIFY_HCLOUD_TOKEN",
        missingMsg "NOTIFY_NODE_NAME", missingMsg "NOTIFY_FLOATING_IPS"] := by
      unfold expectedConfigErrs
      simp [h1, h2, h5]
    have := (hrun (by rw [he]; simp)).1
    rw [this, he]
  · intro key hkey hnone
    unfold expectedConfigErrs
    simp only [List.mem_cons, List.mem_singleton, List.not_mem_nil, or_false] at hkey
    rcases hkey with rfl | rfl | rfl
    · simp [hnone]
    · simp [hnone]
    · simp [hnone]
  · intro s e hs he hp
    unfold expectedConfigErrs
    simp only [hs, List.mem_append, List.mem_map, List.mem_filter]
    right
    exact ⟨e, ⟨he, by simp [hp]⟩, rfl⟩

/-- Witness of the amended C7: three arguments and an empty environment. -/
theorem run_config_errors_witness :
    3 ≤ ["a", "b", "MASTER"].length
    ∧ (run worldNoEnv config0 ["a", "b", "MASTER"]).outcome
        = .returned (some (.multi [missingMsg "NOTIFY_HCLOUD_TOKEN",
            missingMsg "NOTIFY_NODE_NAME", missingMsg "NOTIFY_FLOATING_IPS"])) :=
  ⟨by decide,
    (run_config_errors worldNoEnv config0 ["a", "b", "MASTER"] (by decide)).1 rfl rfl rfl⟩

theorem getLast?_cons_append_singleton (a b : Call) (l : List Call) :
    (a :: l ++ [b]).getLast? = some b := by
  have h : a :: l ++ [b] = (a :: l) ++ [b] := rfl
  rw [h, List.getLast?_append]
  simp

theorem assignCalls_run_shape (p d name : String) (l : List Call) :
    assignCalls (Call.writeFile p d :: (Call.serverGetByName name :: Call.floatingIPAll :: l)
        ++ [Call.writeFile p d])
      = assignCalls l := by
  have h : Call.writeFile p d :: (Call.serverGetByName name :: Call.floatingIPAll :: l)
        ++ [Call.writeFile p d]
      = [Call.writeFile p d, Call.serverGetByName name, Call.floatingIPAll]
        ++ (l ++ [Call.writeFile p d]) := rfl
  rw [h, assignCalls_append, assignCalls_append]
  simp [assignCalls]

/-- C8, counterexample: the configuration is valid and the first write succeeds,
the lookup of the node fails; `run` returns at once and the state has been
written to the health-check file once, not twice. -/
theorem run_state_writes_counterexample :
    resolveConfig worldNoSelf config0 = ([], configTest)
    ∧ (run worldNoSelf config0 ["a", "b", "MASTER"]).calls
        = [writeMaster, .serverGetByName "node1"]
    ∧ ((run worldNoSelf config0 ["a", "b", "MASTER"]).calls.filter Call.isWrite).length = 1 := by
  decide

/-- C8, amended: for an invocation that passes configuration validation, the
first call of `run` writes the state to the health-check file.  When that write
succeeds and either the state is not `MASTER` or reconciliation completes (lookup
and listing succeed, the assign loop ends without error), the state is written a
second time, as the last call.  When the lookup fails, the listing fails or the
assign loop ends with an error, `run` returns that error and the state has been
written only once. -/
theorem run_state_writes (w : World) (config cfg : Config) (args : List String)
    (state : String)
    (hargs : args[2]? = some state)
    (hcfg : resolveConfig w config = ([], cfg)) :
    (run w config args).calls.head? = some (Call.writeFile cfg.HealthCheckPath state)
    ∧ (w.writeFile 0 cfg.HealthCheckPath state = none → state ≠ "MASTER"
      → (run w config args).calls
          = [Call.writeFile cfg.HealthCheckPath state, Call.writeFile cfg.HealthCheckPath state])
    ∧ (w.writeFile 0 cfg.HealthCheckPath state = none → state = "MASTER"
      → ∀ server l, w.getByName cfg.NodeName = .ok (some server) → w.all = .ok l
      → (assignLoop w cfg server 0 l).2 = none
      → (run w config args).calls.filter Call.isWrite
          = [Call.writeFile cfg.HealthCheckPath state, Call.writeFile cfg.HealthCheckPath state]
        ∧ (run w config args).calls.getLast? = some (Call.writeFile cfg.HealthCheckPath state))
    ∧ (w.writeFile 0 cfg.HealthCheckPath state = none → state = "MASTER"
      → ∀ err, w.getByName cfg.NodeName = .error err
      → (run w config args).calls.filter Call.isWrite
          = [Call.writeFile cfg.HealthCheckPath state]
        ∧ (run w config args).outcome
          = .returned (some (.errorf ("unable to find myself in the api: " ++ err))))
    ∧ (w.writeFile 0 cfg.HealthCheckPath state = none → state = "MASTER"
      → ∀ server err, w.getByName cfg.NodeName = .ok (some server) → w.all = .error err
      → (run w config args).calls.filter Call.isWrite
          = [Call.writeFile cfg.HealthCheckPath state]
        ∧ (run w config args).outcome
          = .returned (some (.errorf ("unable to list floating IPs in the api: " ++ err))))
    ∧ (w.writeFile 0 cfg.HealthCheckPath state = none → state = "MASTER"
      → ∀ server l msg, w.getByName cfg.NodeName = .ok (some server) → w.all = .ok l
      → (assignLoop w cfg server 0 l).2 = some msg
      → (run w config args).calls.filter Call.isWrite
          = [Call.writeFile cfg.HealthCheckPath state]
        ∧ (run w config args).outcome = .returned (some (.errorf msg))) := by
  rw [run_eq_runState w config cfg args state hargs hcfg]
  refine ⟨runState_head w cfg state, ?_, ?_, ?_, ?_, ?_⟩
  · intro hw0 hs
    exact runState_not_master w cfg state hw0 hs
  · intro hw0 hs server l hself hall hloop
    subst hs
    have hm := master_eq w cfg server l hself hall
    have ho : (master w cfg).2 = none := by rw [hm]; simp [hloop]
    rw [(runState_complete w cfg hw0 ho).1]
    exact ⟨writes_complete cfg "MASTER" _ (master_isRemote w cfg),
      getLast?_cons_append_singleton _ _ _⟩
  · intro hw0 hs err hself
    subst hs
    have ho : (master w cfg).2
        = some (.returned (some (.errorf ("unable to find myself in the api: " ++ err)))) := by
      unfold master; simp only [hself]
    rw [runState_abort w cfg _ hw0 ho]
    exact ⟨writes_abort cfg "MASTER" _ (master_isRemote w cfg), rfl⟩
  · intro hw0 hs server err hself hall
    subst hs
    have ho : (master w cfg).2
        = some (.returned (some (.errorf ("unable to list floating IPs in the api: " ++ err)))) := by
      unfold master; simp only [hself, hall]
    rw [runState_abort w cfg _ hw0 ho]
    exact ⟨writes_abort cfg "MASTER" _ (master_isRemote w cfg), rfl⟩
  · intro hw0 hs server l msg hself hall hloop
    subst hs
    have hm := master_eq w cfg server l hself hall
    have ho : (master w cfg).2 = some (.returned (some (.errorf msg))) := by
      rw [hm]; simp [hloop]
    rw [runState_abort w cfg _ hw0 ho]
    exact ⟨writes_abort cfg "MASTER" _ (master_isRemote w cfg), rfl⟩

/-- Witness of the amended C8: two writes in the world where every call
succeeds, one write in the world where the second assign call fails. -/
theorem run_state_writes_witness :
    ((run worldOk config0 ["a", "b", "MASTER"]).calls.filter Call.isWrite
        = [writeMaster, writeMaster]
      ∧ (run worldOk config0 ["a", "b", "MASTER"]).calls.getLast? = some writeMaster)
    ∧ ((run worldFail2 config0 ["a", "b", "MASTER"]).calls.filter Call.isWrite = [writeMaster]
      ∧ (run worldFail2 config0 ["a", "b", "MASTER"]).outcome
        = .returned (some (.errorf (assignErrorMsg fipB self1 "locked")))) :=
  ⟨(run_state_writes worldOk config0 configTest ["a", "b", "MASTER"] "MASTER"
      (by decide) (by decide)).2.2.1 rfl rfl self1 [fipA, fipB, fipC] rfl rfl (by decide),
   (run_state_writes worldFail2 config0 configTest ["a", "b", "MASTER"] "MASTER"
      (by decide) (by decide)).2.2.2.2.2 rfl rfl self1 [fipA, fipB, fipC]
      (assignErrorMsg fipB self1 "locked") rfl rfl (by decide)⟩

/-- C10: in a MASTER run where self lookup and listing succeed and every assign
call succeeds, the assign calls issued by `run` are, in the order of the remote
list, the entries that match a configured address and whose server is nil or has
an ID other than the ID of self, each with self as target; an entry that does not
match is never passed to assign. -/
theorem run_assign_calls (w : World) (config cfg : Config) (args : List String)
    (server : Server) (floatingIPs : List FloatingIP)
    (hargs : args[2]? = some "MASTER")
    (hcfg : resolveConfig w config = ([], cfg))
    (hw0 : w.writeFile 0 cfg.HealthCheckPath "MASTER" = none)
    (hself : w.getByName cfg.NodeName = .ok (some server))
    (hall : w.all = .ok floatingIPs)
    (hok : ∀ pos f, w.assign pos f server = none) :
    assignCalls (run w config args).calls
        = (floatingIPs.filter (fun f => matchFloatingIP cfg f
            && f.Server.all (fun s => decide (s.ID ≠ server.ID)))).map (fun f => (f, server))
    ∧ (∀ f s, (f, s) ∈ assignCalls (run w config args).calls
        → matchFloatingIP cfg f = true ∧ s = server) := by
  have hloop := assignLoop_ok w cfg server floatingIPs (fun i g _ _ => hok i g)
  have hm := master_eq w cfg server floatingIPs hself hall
  have ho : (master w cfg).2 = none := by rw [hm]; simp [hloop]
  have hcalls : assignCalls (run w config args).calls
      = (floatingIPs.filter (fun f => matchFloatingIP cfg f
          && f.Server.all (fun s => decide (s.ID ≠ server.ID)))).map (fun f => (f, server)) := by
    rw [run_eq_runState w config cfg args "MASTER" hargs hcfg,
      (runState_complete w cfg hw0 ho).1, hm, hloop]
    have hfun : needsAssign cfg server = (fun f => matchFloatingIP cfg f
        && f.Server.all (fun s => decide (s.ID ≠ server.ID))) := by
      funext f; exact needsAssign_eq cfg server f
    rw [hfun, assignCalls_run_shape, assignCalls_map]
  refine ⟨hcalls, ?_⟩
  intro f s hmem
  rw [hcalls] at hmem
  simp only [List.mem_map, List.mem_filter, Bool.and_eq_true, Prod.mk.injEq] at hmem
  obtain ⟨g, ⟨_, hg, _⟩, rfl, rfl⟩ := hmem
  exact ⟨hg, rfl⟩

/-- Witness of C10: in the world where every call succeeds the three matching
floating IPs are assigned in the order of the list. -/
theorem run_assign_calls_witness :
    assignCalls (run worldOk config0 ["a", "b", "MASTER"]).calls
      = [(fipA, self1), (fipB, self1), (fipC, self1)] :=
  (run_assign_calls worldOk config0 configTest ["a", "b", "MASTER"] self1 [fipA, fipB, fipC]
    (by decide) (by decide) rfl rfl rfl (fun _ _ => rfl)).1.trans (by decide)

end HcloudNotify
